import Mathlib

/-!
Shallow embedding of the Phish-Shield backend
(src/backend/url_feature_extractor.py and src/backend/app.py).

URLs and page bodies are Lean strings.  Python character classification
(str.isalpha / str.isdigit, and the regex classes \w, \d, hex digits) is
modelled on the ASCII range, which is the range every claim exercises;
the disjointness and range facts used in proofs hold for the full Unicode
classes as well.  The external artifacts (fitted scaler, XGBoost booster,
the tld database, the HTML parser) are modelled as oracles: the parsed
document tree and the fetch outcome are inputs, and scoring is a function
parameter.  Floating point arithmetic is modelled over the rationals; the
Python literal 1e-5 is modelled as the rational 1 / 100000.
-/

/-- Models Python str.isdigit on the ASCII range: the characters 0-9. -/
def pyIsDigit (c : Char) : Bool :=
  decide (48 ≤ c.toNat) && decide (c.toNat ≤ 57)

/-- Models Python str.isalpha on the ASCII range: A-Z and a-z. -/
def pyIsAlpha (c : Char) : Bool :=
  (decide (65 ≤ c.toNat) && decide (c.toNat ≤ 90)) ||
  (decide (97 ≤ c.toNat) && decide (c.toNat ≤ 122))

/-- Models the regex class \w on the ASCII range: letters, digits, underscore. -/
def isWordChar (c : Char) : Bool :=
  pyIsAlpha c || pyIsDigit c || decide (c = '_')

/-- Models the regex class [0-9a-fA-F]. -/
def isHexChar (c : Char) : Bool :=
  pyIsDigit c ||
  (decide (97 ≤ c.toNat) && decide (c.toNat ≤ 102)) ||
  (decide (65 ≤ c.toNat) && decide (c.toNat ≤ 70))

/-- Models the regex class \s on the ASCII range. -/
def isSpaceChar (c : Char) : Bool :=
  decide (c = ' ') || decide (c = '\t') || decide (c = '\n') ||
  decide (c = '\r') || decide (c = '\x0b') || decide (c = '\x0c')

/-- Models Python str.startswith. -/
def pyStartsWith (s pre : String) : Bool :=
  pre.data.isPrefixOf s.data

/-- Models Python str.endswith. -/
def pyEndsWith (s post : String) : Bool :=
  post.data.isSuffixOf s.data

/-- Runs an anchored matcher at every position of the character list,
succeeding when some position matches; this is re.search for the
anchored pattern. -/
def searchAnywhere (p : List Char → Bool) : List Char → Bool
  | [] => p []
  | c :: cs => p (c :: cs) || searchAnywhere p cs

/-- Substring search: re.search for a literal pattern. -/
def containsSub (s sub : String) : Bool :=
  searchAnywhere (fun l => sub.data.isPrefixOf l) s.data

/-- Lower-cases a string character by character (ASCII model of re.I). -/
def lowerStr (s : String) : String :=
  String.mk (s.data.map Char.toLower)

/-- Case-insensitive substring search: re.search with re.I. -/
def containsSubCI (s sub : String) : Bool :=
  containsSub (lowerStr s) (lowerStr sub)

/-- Consumes a maximal nonempty run of characters satisfying cl; returns
the remainder, or none when the run is empty.  Because every use pairs a
class with a follow-up character outside the class, this maximal-munch
step is equivalent to the backtracking semantics of the regex cl+. -/
def dropRun (cl : Char → Bool) (cs : List Char) : Option (List Char) :=
  let run := cs.takeWhile cl
  if run.isEmpty then none else some (cs.drop run.length)

/-- Anchored matcher for the regex fragment d+ . d+ . d+ . d+ of
is_abnormal_url's IP-address pattern. -/
def matchIPAt (cs : List Char) : Bool :=
  match dropRun pyIsDigit cs with
  | none => false
  | some r1 =>
    match r1 with
    | '.' :: r1b =>
      match dropRun pyIsDigit r1b with
      | none => false
      | some r2 =>
        match r2 with
        | '.' :: r2b =>
          match dropRun pyIsDigit r2b with
          | none => false
          | some r3 =>
            match r3 with
            | '.' :: r3b => (dropRun pyIsDigit r3b).isSome
            | _ => false
        | _ => false
    | _ => false

/-- Anchored matcher for the regex // w+ @ of is_abnormal_url's
username-in-URL pattern. -/
def matchUserinfoAt : List Char → Bool
  | '/' :: '/' :: rest =>
    match dropRun isWordChar rest with
    | some ('@' :: _) => true
    | _ => false
  | _ => false

/-- Suspicious trailing extensions of is_abnormal_url's fourth pattern. -/
def suspiciousExts : List String := ["exe", "zip", "rar", "dll", "js"]

/-- Models re.search of the pattern  . (exe|zip|rar|dll|js) $  : the regex
anchor also matches just before a trailing newline. -/
def matchSuspiciousExt (url : String) : Bool :=
  suspiciousExts.any fun e =>
    pyEndsWith url ("." ++ e) || pyEndsWith url ("." ++ e ++ "\n")

/-- Embeds URLFeatureExtractor.is_abnormal_url: 1 iff the (nonempty) URL
contains an at-sign, a userinfo-style segment, a dotted-quad IP literal,
or ends in a suspicious extension. -/
def is_abnormal_url (url : String) : Nat :=
  if url = "" then 0
  else if url.data.contains '@'
       || searchAnywhere matchUserinfoAt url.data
       || searchAnywhere matchIPAt url.data
       || matchSuspiciousExt url
  then 1 else 0

/-- Valid non-leading characters of a URL scheme, as urllib.parse accepts
them: letters, digits, plus, minus, dot. -/
def schemeChar (c : Char) : Bool :=
  pyIsAlpha c || pyIsDigit c || decide (c = '+') || decide (c = '-') || decide (c = '.')

/-- Models the scheme-splitting step of urllib.parse.urlparse: when the
string has a colon whose maximal preceding segment is a well-formed scheme
(letter first, scheme characters after), returns the lower-cased scheme
and the remainder after the colon; otherwise the scheme is empty and the
whole string remains. -/
def splitScheme (s : String) : String × String :=
  match s.data.findIdx? (· = ':') with
  | some i =>
    match s.data.take i with
    | [] => ("", s)
    | c :: cs =>
      if pyIsAlpha c && cs.all schemeChar then
        (String.mk ((c :: cs).map Char.toLower), String.mk (s.data.drop (i + 1)))
      else ("", s)
  | none => ("", s)

/-- Models the netloc extraction of urllib.parse.urlparse: after the
scheme, a leading // introduces the netloc, which extends to the next
slash, question mark, or hash. -/
def netlocOf (s : String) : String :=
  let rest := (splitScheme s).2
  if pyStartsWith rest "//" then
    String.mk ((rest.data.drop 2).takeWhile fun c =>
      !(decide (c = '/') || decide (c = '?') || decide (c = '#')))
  else ""

/-- Scheme and network location of a parsed URL; the fields the extractor
reads from urllib's ParseResult. -/
structure ParsedURL where
  scheme : String
  netloc : String
deriving DecidableEq

/-- Models urllib.parse.urlparse restricted to the two fields the
extractor uses. -/
def urlparse_model (s : String) : ParsedURL :=
  ⟨(splitScheme s).1, netlocOf s⟩

/-- Embeds URLFeatureExtractor.safe_parse.  urllib.parse.urlparse does
not raise on any input the pipeline feeds it, so the exception branch
returning None is unreachable and the model always returns a parse. -/
def safe_parse (url : String) : Option ParsedURL :=
  some (urlparse_model url)

/-- Models urllib.parse.urljoin for the base scheme://netloc produced by
the extractor (empty path): an absolute reference stands alone, a
protocol-relative reference borrows the base scheme, and path references
are attached to the base. -/
def urljoin_model (base url : String) : String :=
  if url = "" then base
  else if (splitScheme url).1 ≠ "" then url
  else if pyStartsWith url "//" then (splitScheme base).1 ++ ":" ++ url
  else if pyStartsWith url "/" then base ++ url
  else base ++ "/" ++ url

/-- One element node of the parsed document: tag name, attributes, and the
BeautifulSoup .string value (none when the tag does not have exactly one
text child). -/
structure Tag where
  name : String
  attrs : List (String × String)
  strChild : Option String
deriving DecidableEq

/-- Models tag.get(a): the attribute value when present. -/
def Tag.get (t : Tag) (a : String) : Option String :=
  t.attrs.lookup a

/-- Queryable document tree produced by the HTML parsing library from the
fetched body: the element nodes in document order, the serialized form
(soup.decode()), and the visible text (soup.get_text()). -/
structure Doc where
  tags : List Tag
  decodeStr : String
  textStr : String
deriving DecidableEq

/-- Models soup.find_all(name): element nodes with the given tag name. -/
def Doc.findAllName (d : Doc) (name : String) : List Tag :=
  d.tags.filter fun t => t.name == name

/-- Models soup.title: the first title element of the document. -/
def Doc.title (d : Doc) : Option Tag :=
  d.tags.find? fun t => t.name == "title"

/-- Redirect-relevant part of a requests.Response: the length of its
history list (the redirect chain actually followed). -/
structure Response where
  historyLength : Nat
deriving DecidableEq

/-- Outcome of the single bounded GET performed by the constructor:
either a body with its redirect-chain length and the document tree the
HTML parser builds from the body, or the exception text of a transport
failure. -/
inductive FetchOutcome where
  | success (body : String) (historyLength : Nat) (doc : Doc)
  | failure (reason : String)
deriving DecidableEq

/-- State of a URLFeatureExtractor instance after __init__ ran. -/
structure ExtractorState where
  url : String
  parsed : Option ParsedURL
  domain : String
  response : Option Response
  page_content : Option String
  soup : Option Doc
  error : Option String
deriving DecidableEq

/-- Embeds URLFeatureExtractor.__init__: parses the URL, then either
records the fetched body, redirect history and document tree, or records
the exception text with every fetch-derived field left at None. -/
def URLFeatureExtractor_init (url : String) (outcome : FetchOutcome) : ExtractorState :=
  let parsed := safe_parse url
  let domain := match parsed with
    | some p => p.netloc
    | none => ""
  match outcome with
  | .success body hist doc =>
    ⟨url, parsed, domain, some ⟨hist⟩, some body, some doc, none⟩
  | .failure reason =>
    ⟨url, parsed, domain, none, none, none, some reason⟩

/-- Embeds get_url_length: length of the URL, 0 for the empty string. -/
def get_url_length (url : String) : Nat :=
  if url = "" then 0 else url.length

/-- Embeds get_domain_length: length of the netloc, 0 when it is empty. -/
def get_domain_length (domain : String) : Nat :=
  if domain = "" then 0 else domain.length

/-- Modelled from the external tld library consumed by get_tld_length
(the library and its public-suffix database are not part of this
repository): length of the suffix after the last dot of the host, 0 when
the top-level domain cannot be determined. -/
def get_tld_length (url : String) : Nat :=
  let host := (urlparse_model url).netloc
  if host.data.contains '.' then
    (host.data.reverse.takeWhile fun c => !decide (c = '.')).length
  else 0

/-- Embeds get_letter_ratio_in_url: letters over total length, 0 for the
empty URL. -/
def get_letter_ratio_in_url (url : String) : ℚ :=
  if url = "" then 0
  else (url.data.countP pyIsAlpha : ℚ) / (url.length : ℚ)

/-- Embeds get_digit_ratio_in_url: digits over total length, 0 for the
empty URL. -/
def get_digit_ratio_in_url (url : String) : ℚ :=
  if url = "" then 0
  else (url.data.countP pyIsDigit : ℚ) / (url.length : ℚ)

/-- Embeds get_no_of_images: number of img tags, 0 without a document. -/
def get_no_of_images (soup : Option Doc) : Nat :=
  match soup with
  | some d => (d.findAllName "img").length
  | none => 0

/-- Embeds get_no_of_js: number of script tags, 0 without a document. -/
def get_no_of_js (soup : Option Doc) : Nat :=
  match soup with
  | some d => (d.findAllName "script").length
  | none => 0

/-- Embeds get_no_of_css: number of link tags whose rel attribute is
stylesheet, 0 without a document. -/
def get_no_of_css (soup : Option Doc) : Nat :=
  match soup with
  | some d =>
    (d.tags.filter fun t => t.name == "link" && t.get "rel" == some "stylesheet").length
  | none => 0

/-- Link-bearing tags inspected by the reference counters: anchors,
links, scripts and images. -/
def linkTags (d : Doc) : List Tag :=
  d.tags.filter fun t =>
    t.name == "a" || t.name == "link" || t.name == "script" || t.name == "img"

/-- Models the Python expression tag.get('href') or tag.get('src')
followed by the truthiness test: the href when it is a nonempty string,
else the src when it is a nonempty string, else nothing. -/
def usableRef (t : Tag) : Option String :=
  match t.get "href" with
  | some h => if h = "" then
      match t.get "src" with
      | some s => if s = "" then none else some s
      | none => none
    else some h
  | none =>
    match t.get "src" with
    | some s => if s = "" then none else some s
    | none => none

/-- One reference counts as self when the resolved URL starts with the
page's scheme://netloc string, exactly as get_no_of_self_ref tests it. -/
def isSelfRef (base : String) (t : Tag) : Bool :=
  match usableRef t with
  | some u => pyStartsWith (urljoin_model base u) base
  | none => false

/-- One reference counts as external when the resolved URL does not start
with scheme://netloc and has a nonempty netloc, exactly as
get_no_of_external_ref tests it. -/
def isExternalRef (base : String) (t : Tag) : Bool :=
  match usableRef t with
  | some u =>
    let full := urljoin_model base u
    !pyStartsWith full base && decide ((urlparse_model full).netloc ≠ "")
  | none => false

/-- Embeds get_no_of_self_ref: references on link-bearing tags whose
resolution starts with the base scheme://netloc string. -/
def get_no_of_self_ref (soup : Option Doc) (parsed : Option ParsedURL) : Nat :=
  match soup, parsed with
  | some d, some p =>
    ((linkTags d).filter (isSelfRef (p.scheme ++ "://" ++ p.netloc))).length
  | _, _ => 0

/-- Embeds get_no_of_external_ref: references on link-bearing tags whose
resolution does not start with the base string and has a netloc. -/
def get_no_of_external_ref (soup : Option Doc) (parsed : Option ParsedURL) : Nat :=
  match soup, parsed with
  | some d, some p =>
    ((linkTags d).filter (isExternalRef (p.scheme ++ "://" ++ p.netloc))).length
  | _, _ => 0

/-- Embeds is_https: 1 iff the parsed scheme is https. -/
def is_https (parsed : Option ParsedURL) : Nat :=
  match parsed with
  | some p => if p.scheme = "https" then 1 else 0
  | none => 0

/-- Anchored matcher for the regex % [hex] [hex]. -/
def matchPercentAt : List Char → Bool
  | '%' :: a :: b :: _ => isHexChar a && isHexChar b
  | _ => false

/-- Anchored matcher for the regex backslash-x [hex] [hex]. -/
def matchHexEscAt : List Char → Bool
  | '\\' :: 'x' :: a :: b :: _ => isHexChar a && isHexChar b
  | _ => false

/-- Anchored matcher for the regex &#x [hex]+ ; . -/
def matchHtmlHexAt : List Char → Bool
  | '&' :: '#' :: 'x' :: rest =>
    match dropRun isHexChar rest with
    | some (';' :: _) => true
    | _ => false
  | _ => false

/-- Embeds has_obfuscation: 1 iff the raw body matches one of the fixed
obfuscation patterns; 0 without (or with an empty) body. -/
def has_obfuscation (page_content : Option String) : Nat :=
  match page_content with
  | none => 0
  | some body =>
    if body = "" then 0
    else if searchAnywhere matchPercentAt body.data
         || searchAnywhere matchHexEscAt body.data
         || searchAnywhere matchHtmlHexAt body.data
         || containsSub body "javascript:"
         || containsSub body "eval("
         || containsSub body "document.write"
         || containsSub body "fromCharCode"
    then 1 else 0

/-- Embeds has_title.  The source dereferences soup.title.string.strip()
directly, so a title element whose .string is None (a title tag without
exactly one text child) raises AttributeError instead of yielding 0; the
error constructor records that exception. -/
def has_title (soup : Option Doc) : Except String Nat :=
  match soup with
  | none => .ok 0
  | some d =>
    match d.title with
    | none => .ok 0
    | some t =>
      match t.strChild with
      | none => .error "AttributeError: NoneType object has no attribute strip"
      | some s => .ok (if s.trim = "" then 0 else 1)

/-- Embeds has_description: 1 iff a meta tag named description exists
with non-whitespace content. -/
def has_description (soup : Option Doc) : Nat :=
  match soup with
  | none => 0
  | some d =>
    match d.tags.find? (fun t => t.name == "meta" && t.get "name" == some "description") with
    | none => 0
    | some t => if ((t.get "content").getD "").trim = "" then 0 else 1

/-- Embeds has_submit_button: 1 iff a submit-typed input or any button
element exists. -/
def has_submit_button (soup : Option Doc) : Nat :=
  match soup with
  | none => 0
  | some d =>
    if (d.tags.any fun t => t.name == "input" && t.get "type" == some "submit")
       || d.tags.any (fun t => t.name == "button")
    then 1 else 0

/-- Social-network names searched for by has_social_net. -/
def socialWords : List String :=
  ["facebook", "twitter", "linkedin", "instagram", "youtube", "pinterest"]

/-- Embeds has_social_net: 1 iff the serialized document contains one of
the social-network names, case-insensitively. -/
def has_social_net (soup : Option Doc) : Nat :=
  match soup with
  | none => 0
  | some d => if socialWords.any (containsSubCI d.decodeStr) then 1 else 0

/-- Embeds has_favicon: 1 iff a link tag has a rel attribute containing
icon case-insensitively. -/
def has_favicon (soup : Option Doc) : Nat :=
  match soup with
  | none => 0
  | some d =>
    if d.tags.any (fun t => t.name == "link" &&
        match t.get "rel" with
        | some r => containsSubCI r "icon"
        | none => false)
    then 1 else 0

/-- Embeds has_copyright_info: 1 iff the visible text contains copyright
case-insensitively or the copyright glyph. -/
def has_copyright_info (soup : Option Doc) : Nat :=
  match soup with
  | none => 0
  | some d =>
    if containsSubCI d.textStr "copyright" || d.textStr.data.contains '©'
    then 1 else 0

/-- Anchored matcher for the regex window.open s* ( . -/
def matchPopupAt (l : List Char) : Bool :=
  if ("window.open").data.isPrefixOf l then
    match (l.drop 11).dropWhile isSpaceChar with
    | '(' :: _ => true
    | _ => false
  else false

/-- Embeds has_popup_window: 1 iff the (nonempty) body contains a
window.open call pattern. -/
def has_popup_window (page_content : Option String) : Nat :=
  match page_content with
  | none => 0
  | some body =>
    if body = "" then 0
    else if searchAnywhere matchPopupAt body.data then 1 else 0

/-- Embeds has_iframe: 1 iff an iframe element exists. -/
def has_iframe (soup : Option Doc) : Nat :=
  match soup with
  | none => 0
  | some d => if d.tags.any (fun t => t.name == "iframe") then 1 else 0

/-- Embeds get_redirect_value exactly as the code (not its docstring)
computes it: 0 when there is no response object, otherwise 1 when the
history list is nonempty and -1 when it is empty. -/
def get_redirect_value (response : Option Response) : Int :=
  match response with
  | none => 0
  | some r => if r.historyLength > 0 then 1 else -1

/-- Embeds the if/elif chain of extract_model_features mapping the
redirect value to the one-hot pair; none models the unbound-variable
NameError of a value outside the chain. -/
def redirectOneHot (rv : Int) : Option (ℚ × ℚ) :=
  if rv = -1 then some (0, 0)
  else if rv = 0 then some (1, 0)
  else if rv = 1 then some (0, 1)
  else none

/-- Models the float literal 1e-5 of the letter-to-digit ratio. -/
def eps : ℚ := 1 / 100000

/-- Composite LetterToDigitRatio feature exactly as assembled:
letter ratio over digit ratio plus epsilon. -/
def letterToDigitRatio (url : String) : ℚ :=
  get_letter_ratio_in_url url / (get_digit_ratio_in_url url + eps)

/-- Result of extract_model_features: the error record returned when the
constructor recorded a fetch error, the feature record, or a Python
exception escaping the method. -/
inductive ExtractResult where
  | errorRecord (msg : String)
  | features (fs : List (String × ℚ))
  | raised (msg : String)
deriving DecidableEq

/-- Embeds extract_model_features: returns the error record when the
constructor stored an error; otherwise assembles the ordered feature
dictionary.  The title dereference runs before the one-hot variables are
read, so its AttributeError precedes the (unreachable) NameError. -/
def extract_model_features (st : ExtractorState) : ExtractResult :=
  match st.error with
  | some e => .errorRecord e
  | none =>
    match has_title st.soup with
    | .error m => .raised m
    | .ok ht =>
      match redirectOneHot (get_redirect_value st.response) with
      | none => .raised "NameError: name redirect_0 is not defined"
      | some rp =>
        .features [
          ("URLLength", (get_url_length st.url : ℚ)),
          ("DomainLength", (get_domain_length st.domain : ℚ)),
          ("TLDLength", (get_tld_length st.url : ℚ)),
          ("NoOfImage", (get_no_of_images st.soup : ℚ)),
          ("NoOfJS", (get_no_of_js st.soup : ℚ)),
          ("NoOfCSS", (get_no_of_css st.soup : ℚ)),
          ("NoOfSelfRef", (get_no_of_self_ref st.soup st.parsed : ℚ)),
          ("NoOfExternalRef", (get_no_of_external_ref st.soup st.parsed : ℚ)),
          ("IsHTTPS", (is_https st.parsed : ℚ)),
          ("HasObfuscation", (has_obfuscation st.page_content : ℚ)),
          ("HasTitle", (ht : ℚ)),
          ("HasDescription", (has_description st.soup : ℚ)),
          ("HasSubmitButton", (has_submit_button st.soup : ℚ)),
          ("HasSocialNet", (has_social_net st.soup : ℚ)),
          ("HasFavicon", (has_favicon st.soup : ℚ)),
          ("HasCopyrightInfo", (has_copyright_info st.soup : ℚ)),
          ("popUpWindow", (has_popup_window st.page_content : ℚ)),
          ("Iframe", (has_iframe st.soup : ℚ)),
          ("Abnormal_URL", (is_abnormal_url st.url : ℚ)),
          ("LetterToDigitRatio", letterToDigitRatio st.url),
          ("Redirect_0", rp.1),
          ("Redirect_1", rp.2)]

/-- Training-time column order shared by the scaler and the model, from
app.py. -/
def FEATURE_COLUMNS : List String := [
  "URLLength", "DomainLength", "TLDLength", "NoOfImage", "NoOfJS", "NoOfCSS",
  "NoOfSelfRef", "NoOfExternalRef", "IsHTTPS", "HasObfuscation", "HasTitle",
  "HasDescription", "HasSubmitButton", "HasSocialNet", "HasFavicon",
  "HasCopyrightInfo", "popUpWindow", "Iframe", "Abnormal_URL",
  "LetterToDigitRatio", "Redirect_0", "Redirect_1"]

/-- Keys of a feature record, in order; none for the other outcomes. -/
def featureKeys : ExtractResult → Option (List String)
  | .features fs => some (fs.map Prod.fst)
  | .errorRecord _ => none
  | .raised _ => none

/-- Redirect one-hot columns of a feature record, when one was
produced. -/
def redirectPair : ExtractResult → Option (ℚ × ℚ)
  | .features fs =>
    match fs.lookup "Redirect_0", fs.lookup "Redirect_1" with
    | some a, some b => some (a, b)
    | _, _ => none
  | .errorRecord _ => none
  | .raised _ => none

/-- Models the built-in round of Python 3 applied to the predicted
probability: round half to even. -/
def pythonRound (q : ℚ) : ℤ :=
  if q - ⌊q⌋ < 1 / 2 then ⌊q⌋
  else if 1 / 2 < q - ⌊q⌋ then ⌊q⌋ + 1
  else if ⌊q⌋ % 2 = 0 then ⌊q⌋ else ⌊q⌋ + 1

/-- Label string derivation shared by both endpoints of app.py:
Legitimate when the rounded probability is 1, else Phishing. -/
def resultOf (label : ℤ) : String :=
  if label = 1 then "Legitimate" else "Phishing"

/-- Response body of the predict_url endpoint: either the error payload
or the verdict with the echoed features. -/
inductive PredictResponse where
  | errorResp (msg : String)
  | verdict (features : List (String × ℚ)) (prediction : ℤ) (result : String)
deriving DecidableEq

/-- Embeds predict_from_url of app.py.  The pre-trained scaler and
booster are external artifacts; their composition is the score parameter
mapping the assembled features to the predicted probability.  An error
record from extraction, like any exception caught by the handler, is
returned as the error payload. -/
def predict_from_url (score : List (String × ℚ) → ℚ) (url : String)
    (outcome : FetchOutcome) : PredictResponse :=
  match extract_model_features (URLFeatureExtractor_init url outcome) with
  | .errorRecord e => .errorResp e
  | .raised m => .errorResp m
  | .features fs =>
    let label := pythonRound (score fs)
    .verdict fs label (resultOf label)

/-- Document with no elements, as parsed from an empty body. -/
def emptyDoc : Doc := ⟨[], "", ""⟩

/-- Extractor state of a successful fetch of an empty page. -/
def demoState1 : ExtractorState :=
  URLFeatureExtractor_init "https://example.com" (.success "" 0 emptyDoc)

/-- Extractor state of another successful fetch, used to instantiate the
redirect-pair invariant. -/
def demoState4 : ExtractorState :=
  URLFeatureExtractor_init "http://demo.test/" (.success "" 0 emptyDoc)

/-- Document whose title element exists but has no text child, so its
BeautifulSoup .string is None. -/
def emptyTitleDoc : Doc := ⟨[⟨"title", [], none⟩], "<title></title>", ""⟩

/-- Document of a page on example.com holding one anchor to the host
example.com.evil.com, which merely extends the page's host string. -/
def evilDoc : Doc :=
  ⟨[⟨"a", [("href", "https://example.com.evil.com/")], none⟩], "", ""⟩

/-- Parse of the page URL https://example.com. -/
def evilParsed : ParsedURL := ⟨"https", "example.com"⟩

theorem redirectOneHot_total (r : Option Response) :
    ∃ p, redirectOneHot (get_redirect_value r) = some p := by
  rcases r with _ | ⟨⟨h⟩⟩
  · exact ⟨(1, 0), rfl⟩
  · rcases Nat.eq_zero_or_pos h with h0 | hpos
    · subst h0
      exact ⟨(0, 0), rfl⟩
    · refine ⟨(0, 1), ?_⟩
      have hv : get_redirect_value (some ⟨h⟩) = 1 := by
        show (if h > 0 then (1 : Int) else -1) = 1
        rw [if_pos hpos]
      rw [hv]
      rfl

theorem redirectOneHot_cases (r : Option Response) (p : ℚ × ℚ)
    (hp : redirectOneHot (get_redirect_value r) = some p) :
    p = (0, 0) ∨ p = (1, 0) ∨ p = (0, 1) := by
  rcases r with _ | ⟨⟨h⟩⟩
  · have hv : redirectOneHot (get_redirect_value none) = some (1, 0) := rfl
    rw [hv] at hp
    exact Or.inr (Or.inl (Option.some.inj hp).symm)
  · rcases Nat.eq_zero_or_pos h with h0 | hpos
    · subst h0
      have hv : redirectOneHot (get_redirect_value (some ⟨0⟩)) = some (0, 0) := rfl
      rw [hv] at hp
      exact Or.inl (Option.some.inj hp).symm
    · have hv : get_redirect_value (some ⟨h⟩) = 1 := by
        show (if h > 0 then (1 : Int) else -1) = 1
        rw [if_pos hpos]
      rw [hv] at hp
      have hone : redirectOneHot 1 = some (0, 1) := rfl
      rw [hone] at hp
      exact Or.inr (Or.inr (Option.some.inj hp).symm)


theorem extract_eq_of_ok (st : ExtractorState) (he : st.error = none)
    (n : Nat) (hn : has_title st.soup = Except.ok n) (p : ℚ × ℚ)
    (hp : redirectOneHot (get_redirect_value st.response) = some p) :
    extract_model_features st = .features [
      ("URLLength", (get_url_length st.url : ℚ)),
      ("DomainLength", (get_domain_length st.domain : ℚ)),
      ("TLDLength", (get_tld_length st.url : ℚ)),
      ("NoOfImage", (get_no_of_images st.soup : ℚ)),
      ("NoOfJS", (get_no_of_js st.soup : ℚ)),
      ("NoOfCSS", (get_no_of_css st.soup : ℚ)),
      ("NoOfSelfRef", (get_no_of_self_ref st.soup st.parsed : ℚ)),
      ("NoOfExternalRef", (get_no_of_external_ref st.soup st.parsed : ℚ)),
      ("IsHTTPS", (is_https st.parsed : ℚ)),
      ("HasObfuscation", (has_obfuscation st.page_content : ℚ)),
      ("HasTitle", (n : ℚ)),
      ("HasDescription", (has_description st.soup : ℚ)),
      ("HasSubmitButton", (has_submit_button st.soup : ℚ)),
      ("HasSocialNet", (has_social_net st.soup : ℚ)),
      ("HasFavicon", (has_favicon st.soup : ℚ)),
      ("HasCopyrightInfo", (has_copyright_info st.soup : ℚ)),
      ("popUpWindow", (has_popup_window st.page_content : ℚ)),
      ("Iframe", (has_iframe st.soup : ℚ)),
      ("Abnormal_URL", (is_abnormal_url st.url : ℚ)),
      ("LetterToDigitRatio", letterToDigitRatio st.url),
      ("Redirect_0", p.1),
      ("Redirect_1", p.2)] := by
  unfold extract_model_features
  rw [he, hn, hp]

theorem extract_eq_of_error (st : ExtractorState) (e : String)
    (he : st.error = some e) :
    extract_model_features st = .errorRecord e := by
  unfold extract_model_features
  rw [he]

theorem extract_eq_of_raised (st : ExtractorState) (he : st.error = none)
    (m : String) (hm : has_title st.soup = Except.error m) :
    extract_model_features st = .raised m := by
  unfold extract_model_features
  rw [he, hm]

theorem redirectPair_extract (st : ExtractorState) (he : st.error = none)
    (n : Nat) (hn : has_title st.soup = Except.ok n) (p : ℚ × ℚ)
    (hp : redirectOneHot (get_redirect_value st.response) = some p) :
    redirectPair (extract_model_features st) = some p := by
  rw [extract_eq_of_ok st he n hn p hp]
  rfl

/-- Claim C3: get_redirect_value is claimed (as its own docstring says) to
return -1 with no response and 0 with a redirect-free response; the code
returns 0 and -1 there respectively, so under the assembler's mapping a
failed fetch would one-hot to (1,0) and a redirect-free response to
(0,0).  This theorem evaluates the code at the failing inputs. -/
theorem c3_redirect_code_eval :
    get_redirect_value none = 0 ∧
    get_redirect_value (some ⟨0⟩) = -1 ∧
    get_redirect_value (some ⟨2⟩) = 1 ∧
    redirectOneHot (-1) = some (0, 0) ∧
    redirectOneHot 0 = some (1, 0) ∧
    redirectOneHot 1 = some (0, 1) :=
  ⟨rfl, rfl, rfl, rfl, rfl, rfl⟩

/-- Claim C7: has_title is claimed total, yet on a document whose title
element has no text node the code dereferences None and raises
AttributeError, which aborts extraction.  This theorem evaluates the code
at that failing input. -/
theorem c7_has_title_raises :
    has_title (some emptyTitleDoc) =
      Except.error "AttributeError: NoneType object has no attribute strip" ∧
    extract_model_features (URLFeatureExtractor_init "http://t.example/"
        (.success "<title></title>" 0 emptyTitleDoc)) =
      .raised "AttributeError: NoneType object has no attribute strip" :=
  ⟨rfl, rfl⟩

/-- Claim C8: reference classification is claimed to compare scheme+host,
but the code tests whether the resolved URL string merely starts with
scheme://netloc: an anchor to example.com.evil.com on a page of
example.com is counted self and not external, although its host (third
conjunct) differs from the page's host. -/
theorem c8_self_ref_code_eval :
    get_no_of_self_ref (some evilDoc) (some evilParsed) = 1 ∧
    get_no_of_external_ref (some evilDoc) (some evilParsed) = 0 ∧
    (urlparse_model
        (urljoin_model "https://example.com" "https://example.com.evil.com/")).netloc
      = "example.com.evil.com" :=
  ⟨rfl, rfl, rfl⟩

/-- Claim C1 (counterexample): for a URL whose fetch fails,
extract_model_features does not return the 22-field record: it returns
the single-field error record, so featureKeys is none. -/
theorem c1_fetch_failure_counterexample :
    featureKeys (extract_model_features
      (URLFeatureExtractor_init "http://down.test/" (.failure "timed out"))) = none :=
  rfl

/-- Claim C1 (amended): whenever extract_model_features returns a feature
record - the fetch recorded no error and the title dereference does not
raise - the record holds exactly the 22 FEATURE_COLUMNS fields in the
fixed training-time order, URLLength first and Redirect_1 last. -/
theorem c1_feature_keys_complete (st : ExtractorState) (he : st.error = none)
    (ht : ∃ n, has_title st.soup = Except.ok n) :
    featureKeys (extract_model_features st) = some FEATURE_COLUMNS := by
  obtain ⟨n, hn⟩ := ht
  obtain ⟨p, hp⟩ := redirectOneHot_total st.response
  rw [extract_eq_of_ok st he n hn p hp]
  rfl

/-- Claim C1 (witness): the amended theorem applied to the state of a
successful fetch of an empty page. -/
theorem c1_feature_keys_witness :
    demoState1.error = none ∧ has_title demoState1.soup = Except.ok 0 ∧
    featureKeys (extract_model_features demoState1) = some FEATURE_COLUMNS :=
  ⟨rfl, rfl, c1_feature_keys_complete demoState1 rfl ⟨0, rfl⟩⟩

/-- Claim C2 (counterexample): a URL whose fetch fails does not yield a
verdict with zeroed content features: extraction returns no feature
record at all and predict_from_url surfaces the failure as an error
payload. -/
theorem c2_fetch_failure_counterexample :
    predict_from_url (fun _ => 0) "http://refused.test/" (.failure "Connection refused")
      = .errorResp "Connection refused" ∧
    featureKeys (extract_model_features (URLFeatureExtractor_init "http://refused.test/"
      (.failure "Connection refused"))) = none :=
  ⟨rfl, rfl⟩

/-- Claim C2 (amended): for every URL whose fetch fails,
extract_model_features returns the error record carrying the failure
reason and predict_from_url returns that reason as an error payload to
the caller; no feature vector and no verdict are produced. -/
theorem c2_fetch_failure_surfaced (score : List (String × ℚ) → ℚ)
    (url reason : String) :
    extract_model_features (URLFeatureExtractor_init url (.failure reason))
      = .errorRecord reason ∧
    predict_from_url score url (.failure reason) = .errorResp reason :=
  ⟨rfl, rfl⟩

/-- Claim C4: whenever extract_model_features returns a feature vector,
its (Redirect_0, Redirect_1) pair is one of (0,0), (1,0), (0,1) and never
(1,1); and the if/elif chain is exhaustive over get_redirect_value's
range, so the one-hot variables are always assigned. -/
theorem c4_redirect_onehot_invariant (st : ExtractorState) :
    (redirectOneHot (get_redirect_value st.response)).isSome = true ∧
    ∀ q, redirectPair (extract_model_features st) = some q →
      q = ((0 : ℚ), (0 : ℚ)) ∨ q = (1, 0) ∨ q = (0, 1) := by
  obtain ⟨p, hp⟩ := redirectOneHot_total st.response
  refine ⟨by rw [hp]; rfl, ?_⟩
  intro q hq
  cases he : st.error with
  | some e =>
    rw [extract_eq_of_error st e he] at hq
    exact absurd hq (by simp [redirectPair])
  | none =>
    cases hht : has_title st.soup with
    | error m =>
      rw [extract_eq_of_raised st he m hht] at hq
      exact absurd hq (by simp [redirectPair])
    | ok n =>
      rw [redirectPair_extract st he n hht p hp] at hq
      rw [← Option.some.inj hq]
      exact redirectOneHot_cases st.response p hp

/-- Claim C4 (witness): the invariant applied to a concrete redirect-free
successful fetch, whose pair is (0,0). -/
theorem c4_redirect_onehot_witness :
    redirectPair (extract_model_features demoState4) = some ((0 : ℚ), (0 : ℚ)) ∧
    (((0 : ℚ), (0 : ℚ)) = ((0 : ℚ), (0 : ℚ)) ∨ ((0 : ℚ), (0 : ℚ)) = ((1 : ℚ), (0 : ℚ)) ∨
      ((0 : ℚ), (0 : ℚ)) = ((0 : ℚ), (1 : ℚ))) :=
  ⟨rfl, (c4_redirect_onehot_invariant demoState4).2 ((0 : ℚ), (0 : ℚ)) rfl⟩

/-- Claim C6: is_abnormal_url returns 1 for the dotted-quad IP literal
URL and for the embedded-credential URL, 0 for the ordinary https URL;
and one matching pattern (here the at-sign) suffices on its own. -/
theorem c6_abnormal_url_eval :
    is_abnormal_url "http://192.168.1.1/login" = 1 ∧
    is_abnormal_url "http://a@b.com/" = 1 ∧
    is_abnormal_url "https://example.com/path" = 0 ∧
    ∀ u : String, u ≠ "" → u.data.contains '@' = true → is_abnormal_url u = 1 := by
  refine ⟨by decide, by decide, by decide, ?_⟩
  intro u hne hat
  unfold is_abnormal_url
  rw [if_neg hne, hat]
  rfl

/-- Claim C6 (witness): the sufficiency clause applied to a concrete URL
containing only the at-sign pattern. -/
theorem c6_abnormal_url_witness :
    ("x@y" : String) ≠ "" ∧ ("x@y" : String).data.contains '@' = true ∧
    is_abnormal_url "x@y" = 1 :=
  ⟨by decide, by decide, c6_abnormal_url_eval.2.2.2 "x@y" (by decide) (by decide)⟩

theorem countP_alpha_add_digit_le (l : List Char) :
    l.countP pyIsAlpha + l.countP pyIsDigit ≤ l.length := by
  induction l with
  | nil => simp
  | cons c cs ih =>
    rw [List.countP_cons, List.countP_cons, List.length_cons]
    have hcd : ¬(pyIsAlpha c = true ∧ pyIsDigit c = true) := by
      simp only [pyIsAlpha, pyIsDigit, Bool.or_eq_true, Bool.and_eq_true,
        decide_eq_true_eq]
      omega
    cases ha : pyIsAlpha c with
    | false =>
      cases hd : pyIsDigit c with
      | false =>
        simp [ha, hd]
        omega
      | true =>
        simp [ha, hd]
        omega
    | true =>
      cases hd : pyIsDigit c with
      | false =>
        simp [ha, hd]
        omega
      | true => exact absurd ⟨ha, hd⟩ hcd

theorem string_length_pos_of_ne (url : String) (h : url ≠ "") :
    0 < url.length := by
  rcases url with ⟨data⟩
  cases data with
  | nil => exact absurd rfl h
  | cons c cs => exact Nat.succ_pos cs.length

/-- Claim C5: LetterToDigitRatio is the letter ratio divided by the digit
ratio plus epsilon; for a URL without digit characters the digit ratio is
0, the denominator equals the nonzero epsilon, and the feature is the
finite value letterRatio * 100000. -/
theorem c5_letter_to_digit_defined (url : String)
    (h : ∀ c ∈ url.data, pyIsDigit c = false) :
    get_digit_ratio_in_url url = 0 ∧
    get_digit_ratio_in_url url + eps ≠ 0 ∧
    letterToDigitRatio url = get_letter_ratio_in_url url * 100000 := by
  have hcount : url.data.countP pyIsDigit = 0 := by
    rw [List.countP_eq_zero]
    intro a ha
    simp [h a ha]
  have hd : get_digit_ratio_in_url url = 0 := by
    unfold get_digit_ratio_in_url
    by_cases hu : url = ""
    · rw [if_pos hu]
    · rw [if_neg hu, hcount]
      norm_num
  refine ⟨hd, ?_, ?_⟩
  · rw [hd, zero_add]
    norm_num [eps]
  · unfold letterToDigitRatio
    rw [hd, zero_add, eps]
    rw [div_eq_mul_inv]
    norm_num

/-- Claim C5 (witness): the theorem applied to the digitless URL from the
spec's example. -/
theorem c5_letter_to_digit_witness :
    get_digit_ratio_in_url "https://example" = 0 ∧
    get_digit_ratio_in_url "https://example" + eps ≠ 0 ∧
    letterToDigitRatio "https://example"
      = get_letter_ratio_in_url "https://example" * 100000 :=
  c5_letter_to_digit_defined "https://example" (by decide)

/-- Claim C10: for every nonempty URL the letter and digit ratios lie in
the unit interval and sum to at most 1 (no character is both a letter and
a digit), and LetterToDigitRatio lies between 0 and 100000. -/
theorem c10_ratio_bounds (url : String) (h : url ≠ "") :
    0 ≤ get_letter_ratio_in_url url ∧ get_letter_ratio_in_url url ≤ 1 ∧
    0 ≤ get_digit_ratio_in_url url ∧ get_digit_ratio_in_url url ≤ 1 ∧
    get_letter_ratio_in_url url + get_digit_ratio_in_url url ≤ 1 ∧
    0 ≤ letterToDigitRatio url ∧ letterToDigitRatio url ≤ 100000 := by
  have hlen : 0 < url.length := string_length_pos_of_ne url h
  have hlenQ : (0 : ℚ) < (url.length : ℚ) := by exact_mod_cast hlen
  have hdata : url.data.length = url.length := rfl
  have hA : (url.data.countP pyIsAlpha : ℚ) ≤ (url.length : ℚ) := by
    have := List.countP_le_length (p := pyIsAlpha) (l := url.data)
    rw [hdata] at this
    exact_mod_cast this
  have hD : (url.data.countP pyIsDigit : ℚ) ≤ (url.length : ℚ) := by
    have := List.countP_le_length (p := pyIsDigit) (l := url.data)
    rw [hdata] at this
    exact_mod_cast this
  have hAD : (url.data.countP pyIsAlpha : ℚ) + (url.data.countP pyIsDigit : ℚ)
      ≤ (url.length : ℚ) := by
    have := countP_alpha_add_digit_le url.data
    rw [hdata] at this
    exact_mod_cast this
  have hA0 : (0 : ℚ) ≤ (url.data.countP pyIsAlpha : ℚ) := Nat.cast_nonneg _
  have hD0 : (0 : ℚ) ≤ (url.data.countP pyIsDigit : ℚ) := Nat.cast_nonneg _
  have hL : get_letter_ratio_in_url url
      = (url.data.countP pyIsAlpha : ℚ) / (url.length : ℚ) := by
    unfold get_letter_ratio_in_url
    rw [if_neg h]
  have hDr : get_digit_ratio_in_url url
      = (url.data.countP pyIsDigit : ℚ) / (url.length : ℚ) := by
    unfold get_digit_ratio_in_url
    rw [if_neg h]
  have hL0 : 0 ≤ get_letter_ratio_in_url url := by
    rw [hL]; exact div_nonneg hA0 (le_of_lt hlenQ)
  have hL1 : get_letter_ratio_in_url url ≤ 1 := by
    rw [hL]; exact (div_le_one hlenQ).mpr hA
  have hDr0 : 0 ≤ get_digit_ratio_in_url url := by
    rw [hDr]; exact div_nonneg hD0 (le_of_lt hlenQ)
  have hDr1 : get_digit_ratio_in_url url ≤ 1 := by
    rw [hDr]; exact (div_le_one hlenQ).mpr hD
  have hsum : get_letter_ratio_in_url url + get_digit_ratio_in_url url ≤ 1 := by
    rw [hL, hDr, div_add_div_same]
    exact (div_le_one hlenQ).mpr hAD
  have heps : (0 : ℚ) < eps := by norm_num [eps]
  have hden : (0 : ℚ) < get_digit_ratio_in_url url + eps :=
    add_pos_of_nonneg_of_pos hDr0 heps
  have hR0 : 0 ≤ letterToDigitRatio url := by
    unfold letterToDigitRatio
    exact div_nonneg hL0 (le_of_lt hden)
  have hR1 : letterToDigitRatio url ≤ 100000 := by
    unfold letterToDigitRatio
    calc get_letter_ratio_in_url url / (get_digit_ratio_in_url url + eps)
        ≤ 1 / (get_digit_ratio_in_url url + eps) :=
          (div_le_div_iff_of_pos_right hden).mpr hL1
      _ ≤ 1 / eps := one_div_le_one_div_of_le heps (le_add_of_nonneg_left hDr0)
      _ = 100000 := by norm_num [eps]
  exact ⟨hL0, hL1, hDr0, hDr1, hsum, hR0, hR1⟩

/-- Claim C10 (witness): the bounds applied to a concrete URL. -/
theorem c10_ratio_bounds_witness :
    0 ≤ get_letter_ratio_in_url "https://example.com" ∧
    get_letter_ratio_in_url "https://example.com" ≤ 1 ∧
    0 ≤ get_digit_ratio_in_url "https://example.com" ∧
    get_digit_ratio_in_url "https://example.com" ≤ 1 ∧
    get_letter_ratio_in_url "https://example.com"
      + get_digit_ratio_in_url "https://example.com" ≤ 1 ∧
    0 ≤ letterToDigitRatio "https://example.com" ∧
    letterToDigitRatio "https://example.com" ≤ 100000 :=
  c10_ratio_bounds "https://example.com" (by decide)

theorem resultOf_eq_legit_iff (n : ℤ) : resultOf n = "Legitimate" ↔ n = 1 := by
  unfold resultOf
  by_cases h : n = 1
  · rw [if_pos h]
    simp [h]
  · rw [if_neg h]
    constructor
    · intro hs
      exact absurd hs (by decide)
    · intro h1
      exact absurd h1 h

theorem pythonRound_eq_one_iff (p : ℚ) (h0 : 0 ≤ p) (h1 : p ≤ 1) :
    pythonRound p = 1 ↔ 1 / 2 < p := by
  rcases eq_or_lt_of_le h1 with h1e | h1l
  · subst h1e
    unfold pythonRound
    norm_num
  · have hf : ⌊p⌋ = 0 := by
      rw [Int.floor_eq_zero_iff]
      exact ⟨h0, h1l⟩
    unfold pythonRound
    rw [hf]
    simp only [Int.cast_zero, sub_zero, zero_add]
    rcases lt_trichotomy p (1 / 2) with hlt | heq | hgt
    · rw [if_pos hlt]
      constructor
      · intro h01
        exact absurd h01 (by norm_num)
      · intro hc
        exact absurd hc (not_lt.mpr (le_of_lt hlt))
    · rw [if_neg (by rw [heq]; exact lt_irrefl _), if_neg (by rw [heq]; exact lt_irrefl _),
        if_pos (by norm_num)]
      constructor
      · intro h01
        exact absurd h01 (by norm_num)
      · intro hc
        rw [heq] at hc
        exact absurd hc (lt_irrefl _)
    · rw [if_neg (not_lt.mpr (le_of_lt hgt)), if_pos hgt]
      exact ⟨fun _ => hgt, fun _ => rfl⟩

/-- Claim C9 (counterexample): at probability one half, banker's rounding
sends the label to 0, so the endpoint answers Phishing, not the claimed
Legitimate. -/
theorem c9_half_counterexample :
    resultOf (pythonRound (1 / 2 : ℚ)) = "Phishing" := by
  norm_num [pythonRound, resultOf]

/-- Claim C9 (amended): Python's round is round-half-to-even, so for a
probability p in the unit interval the label is Legitimate iff p rounds
to 1 under round-half-to-even, which holds iff one half is strictly
exceeded; at exactly one half the rounded label is 0 and the verdict is
Phishing. -/
theorem c9_label_round_half_even (p : ℚ) (h0 : 0 ≤ p) (h1 : p ≤ 1) :
    (resultOf (pythonRound p) = "Legitimate" ↔ pythonRound p = 1) ∧
    (resultOf (pythonRound p) = "Legitimate" ↔ 1 / 2 < p) ∧
    pythonRound (1 / 2 : ℚ) = 0 := by
  refine ⟨resultOf_eq_legit_iff (pythonRound p), ?_, by norm_num [pythonRound]⟩
  rw [resultOf_eq_legit_iff (pythonRound p)]
  exact pythonRound_eq_one_iff p h0 h1

/-- Claim C9 (witness): the amended theorem applied at probability three
quarters, which is labelled Legitimate. -/
theorem c9_label_round_half_even_witness :
    (0 : ℚ) ≤ 3 / 4 ∧ (3 / 4 : ℚ) ≤ 1 ∧
    ((resultOf (pythonRound (3 / 4 : ℚ)) = "Legitimate" ↔ pythonRound (3 / 4 : ℚ) = 1) ∧
      (resultOf (pythonRound (3 / 4 : ℚ)) = "Legitimate" ↔ (1 / 2 : ℚ) < 3 / 4) ∧
      pythonRound (1 / 2 : ℚ) = 0) :=
  ⟨by norm_num, by norm_num,
    c9_label_round_half_even (3 / 4) (by norm_num) (by norm_num)⟩
